import Mathlib

/-!
Verification development for the NILTrack ingestion pipeline
(`cbb_tracker.py`, `espn_sync.py`, `sync_all_boxscores.py`, `dump_boxscores.py`).

The Python sources are shallowly embedded: pure helper functions become Lean
functions, fallible Python code (`int(...)` on a bad string, `raise SystemExit`)
returns `Option`/`Except`, and the SQLite tables become lists of rows with the
`INSERT OR IGNORE` / `INSERT OR REPLACE` conflict semantics made explicit.
-/

/-! ## Python string primitives

`isPyWS` models the ASCII portion of Python's `\s` / `str.strip()` whitespace
set.  `pyInt` models `int(s)` on a string: surrounding whitespace is allowed,
then an optional sign, then a non-empty run of decimal digits (Python's
digit-group underscores are not modelled; none of the inputs at issue use
them).  `pyOrS` is Python's `a or b` on strings ("" is falsy). -/

def isPyWS (c : Char) : Bool :=
  c = ' ' || c = '\t' || c = '\n' || c = '\r' || c.toNat = 11 || c.toNat = 12

def isPyDigitChar (c : Char) : Bool :=
  48 ≤ c.toNat && c.toNat ≤ 57

def digitVal (c : Char) : Nat := c.toNat - 48

def digitsToNat (l : List Char) : Nat :=
  l.foldl (fun a c => 10 * a + digitVal c) 0

def dropWS (l : List Char) : List Char := l.dropWhile isPyWS

/-- Python `str.strip()` (ASCII whitespace). -/
def pyStrip (s : String) : String :=
  ⟨((s.data.dropWhile isPyWS).reverse.dropWhile isPyWS).reverse⟩

/-- Python `str.isdigit()` restricted to ASCII: non-empty and all digits. -/
def pyIsDigit (s : String) : Bool :=
  !s.data.isEmpty && s.data.all isPyDigitChar

/-- Python `int(s)` for a string argument: `some` value, or `none` for the
`ValueError` that `int` raises on a malformed literal. -/
def pyInt (s : String) : Option Int :=
  let l := dropWS s.data
  let signAndRest : Int × List Char :=
    match l with
    | '+' :: r => (1, r)
    | '-' :: r => (-1, r)
    | r => (1, r)
  let ds := signAndRest.2.takeWhile isPyDigitChar
  let rest := signAndRest.2.dropWhile isPyDigitChar
  if ds ≠ [] ∧ dropWS rest = [] then some (signAndRest.1 * digitsToNat ds)
  else none

/-- Python `str.lower()` (ASCII case folding, character by character). -/
def pyLower (s : String) : String := ⟨s.data.map Char.toLower⟩

/-- Python `a or b` for strings. -/
def pyOrS (a b : String) : String := if a = "" then b else a

/-- Python truthiness filter on an optional string: `None` and `""` are falsy. -/
def otruthy (o : Option String) : Option String :=
  o.bind fun s => if s = "" then none else some s

/-- Python `str(x)` applied to an optional value, as in `str(info.get("id"))`:
`str(None)` is the literal `"None"`. -/
def pyStrOpt (o : Option String) : String :=
  match o with
  | some s => s
  | none => "None"

/-! ## Season derivation (claim C4)

Four season-string-to-year derivations exist in the sources:
* `sync_all_boxscores.season_to_year` — anchored `^\s*(\d{4})\s*-\s*(\d{2})\s*$`
  then `^\s*(\d{4})\s*$`, else `raise SystemExit` (modelled as `none`);
* `dump_boxscores.season_to_year` — the same two anchored patterns and raise;
* `espn_sync.season_to_year` — unanchored prefix `(\d{4})-(\d{2})`, else the
  constant fallback `2026`;
* the inline derivation in `cbb_tracker.player_boxscores` — the two anchored
  patterns with fallback `2026` instead of raising.

`hyphenParse` embeds the anchored `^\s*(\d{4})\s*-\s*(\d{2})\s*$` regex and
`bareParse` the anchored `^\s*(\d{4})\s*$` regex; since `\d{4}` cannot be
followed by a fifth digit in either pattern (`\s*` matches no digit), taking
the maximal digit run and requiring its length gives the same acceptance. -/

def hyphenParse (s : String) : Option (Nat × Nat) :=
  let l1 := dropWS s.data
  let a := l1.takeWhile isPyDigitChar
  let r1 := l1.dropWhile isPyDigitChar
  if a.length = 4 then
    match dropWS r1 with
    | h :: r2 =>
      if h = '-' then
        let b := (dropWS r2).takeWhile isPyDigitChar
        let r3 := (dropWS r2).dropWhile isPyDigitChar
        if b.length = 2 ∧ dropWS r3 = [] then some (digitsToNat a, digitsToNat b)
        else none
      else none
    | [] => none
  else none

def bareParse (s : String) : Option Nat :=
  let l1 := dropWS s.data
  let a := l1.takeWhile isPyDigitChar
  let r1 := l1.dropWhile isPyDigitChar
  if a.length = 4 ∧ dropWS r1 = [] then some (digitsToNat a) else none

/-- `sync_all_boxscores.season_to_year`: `"2025-26"` ↦ `2026`, `"2026"` ↦
`2026`, anything else raises `SystemExit` (modelled as `none`). -/
def sync_all_season_to_year (s : String) : Option Nat :=
  match hyphenParse s with
  | some (y, _) => some (y + 1)
  | none =>
    match bareParse s with
    | some y => some y
    | none => none

/-- `dump_boxscores.season_to_year`: identical acceptance to the
`sync_all_boxscores` variant (same two anchored regexes, same raise). -/
def dump_season_to_year (s : String) : Option Nat :=
  match hyphenParse s with
  | some (y, _) => some (y + 1)
  | none =>
    match bareParse s with
    | some y => some y
    | none => none

/-- The unanchored prefix match `re.match(r"(\d{4})-(\d{2})", s)` used by
`espn_sync.season_to_year`: four digit characters, a hyphen, two digit
characters, then anything at all. -/
def espnPrefixParse (s : String) : Option Nat :=
  match s.data with
  | a :: b :: c :: d :: h :: e :: f :: _ =>
    if h = '-' && isPyDigitChar a && isPyDigitChar b && isPyDigitChar c &&
        isPyDigitChar d && isPyDigitChar e && isPyDigitChar f then
      some (digitsToNat [a, b, c, d])
    else none
  | _ => none

/-- `espn_sync.season_to_year`: `YYYY-YY…` prefix ↦ `YYYY+1`, otherwise the
hard-coded fallback `2026` ("fallback to current season end-year"). -/
def espn_season_to_year (s : String) : Nat :=
  match espnPrefixParse s with
  | some y => y + 1
  | none => 2026

/-- The inline season derivation in `cbb_tracker.player_boxscores`
(lines 345-350): anchored `YYYY-YY` ↦ `YYYY+1`, anchored bare `YYYY` ↦ `YYYY`,
otherwise the default `2026`. -/
def player_boxscores_season_year (s : String) : Nat :=
  match hyphenParse s with
  | some (y, _) => y + 1
  | none =>
    match bareParse s with
    | some y => y
    | none => 2026

example : sync_all_season_to_year "2025-26" = some 2026 := by decide
example : sync_all_season_to_year " 2025 - 26 " = some 2026 := by decide
example : sync_all_season_to_year "2026" = some 2026 := by decide
example : sync_all_season_to_year "garbage" = none := by decide
example : sync_all_season_to_year "2025-267" = none := by decide
example : sync_all_season_to_year "2025-99" = some 2026 := by decide
example : espn_season_to_year "2025-26" = 2026 := by decide
example : espn_season_to_year "2025-267" = 2026 := by decide
example : espn_season_to_year "2024" = 2026 := by decide
example : espn_season_to_year "garbage" = 2026 := by decide
example : player_boxscores_season_year "2024" = 2024 := by decide
example : player_boxscores_season_year "x" = 2026 := by decide
example : pyInt "7" = some 7 := by decide
example : pyInt " -12 " = some (-12) := by decide
example : pyInt "DNP" = none := by decide
example : pyInt "" = none := by decide

/-! ## `sync_all_boxscores` stat-cell parsing (claim C3)

`fg_pair` embeds

    def fg_pair(s):
        try: a,b = s.split('-'); return int(a), int(b)
        except: return 0,0

the tuple unpack succeeds only when the split yields exactly two parts, and
the bare `except` turns every failure (wrong arity or `int` ValueError) into
`(0, 0)`.  `parse_row` embeds `parse_row(group, row)` over the label list
(`group["names"]`/`group["labels"]`) and the value list (`row["stats"]`),
with the values taken as strings as delivered by the ESPN summary endpoint;
an `int()` call on a malformed string raises, which is modelled by `none`. -/

/-- Python `s.split('-')`: split on every occurrence of the separator;
`"".split('-') == ['']`, `"a--b".split('-') == ['a','','b']`. -/
def pySplitDash (l : List Char) : List (List Char) :=
  match l with
  | [] => [[]]
  | c :: r =>
    if c = '-' then [] :: pySplitDash r
    else
      match pySplitDash r with
      | h :: t => (c :: h) :: t
      | [] => [[c]]

/-- `pyInt` on a character list (the pieces produced by `pySplitDash`). -/
def pyIntL (l : List Char) : Option Int :=
  pyInt ⟨l⟩

def fg_pair (s : String) : Int × Int :=
  match pySplitDash s.data with
  | [a, b] =>
    match pyIntL a, pyIntL b with
    | some x, some y => (x, y)
    | _, _ => (0, 0)
  | _ => (0, 0)

/-- The dict comprehension `{labels[i]: vals[i] for i in range(min(...))}`:
pairs in order, later duplicates of a key overwriting earlier ones
(hence lookup from the reversed list). -/
def mget (m : List (String × String)) (k : String) : Option String :=
  m.reverse.lookup k

structure ParsedLine where
  minutes : String
  points : Int
  rebounds : Int
  assists : Int
  steals : Int
  blocks : Int
  turnovers : Int
  fgm : Int
  fga : Int
  tpm : Int
  tpa : Int
  ftm : Int
  fta : Int
  deriving DecidableEq, Repr

/-- `int(m.get(k1) or m.get(k2) or 0)`: a missing/empty cell defaults to `0`,
a present non-empty cell goes through `int()` and may raise (`none`). -/
def statField (m : List (String × String)) (k1 k2 : String) : Option Int :=
  match otruthy (mget m k1) <|> otruthy (mget m k2) with
  | none => some 0
  | some s => pyInt s

/-- `int(m.get(k, 0) or 0)` in the camel-case branch of `parse_row`. -/
def camelField (m : List (String × String)) (k : String) : Option Int :=
  match mget m k with
  | none => some 0
  | some s => if s = "" then some 0 else pyInt s

/-- `sync_all_boxscores.parse_row`.  `none` models an uncaught `ValueError`
escaping `parse_row` (there is no try/except around the `int()` calls for the
plain numeric cells). -/
def parse_row (labels vals : List String) : Option ParsedLine := do
  let m := labels.zip vals
  let minutes := (otruthy (mget m "minutes") <|> otruthy (mget m "MIN")).getD ""
  let points ← statField m "points" "PTS"
  let rebounds ← statField m "rebounds" "REB"
  let assists ← statField m "assists" "AST"
  let steals ← statField m "steals" "STL"
  let blocks ← statField m "blocks" "BLK"
  let turnovers ← statField m "turnovers" "TO"
  if (mget m "fieldGoalsMade").isSome || (mget m "threePointFieldGoalsMade").isSome ||
      (mget m "freeThrowsMade").isSome then
    let fgm ← camelField m "fieldGoalsMade"
    let fga ← camelField m "fieldGoalsAttempted"
    let tpm ← camelField m "threePointFieldGoalsMade"
    let tpa ← camelField m "threePointFieldGoalsAttempted"
    let ftm ← camelField m "freeThrowsMade"
    let fta ← camelField m "freeThrowsAttempted"
    pure ⟨minutes, points, rebounds, assists, steals, blocks, turnovers,
          fgm, fga, tpm, tpa, ftm, fta⟩
  else
    let fg := fg_pair ((mget m "FG").getD "0-0")
    let tp := fg_pair ((mget m "3PT").getD "0-0")
    let ft := fg_pair ((mget m "FT").getD "0-0")
    pure ⟨minutes, points, rebounds, assists, steals, blocks, turnovers,
          fg.1, fg.2, tp.1, tp.2, ft.1, ft.2⟩

example : fg_pair "7-12" = (7, 12) := by decide
example : fg_pair "DNP" = (0, 0) := by decide
example : fg_pair "7-12-3" = (0, 0) := by decide
example : fg_pair "" = (0, 0) := by decide
example : parse_row ["PTS"] ["DNP"] = none := by decide
example : (parse_row ["PTS", "FG"] ["18", "7-12"]).map ParsedLine.points = some 18 := by decide
example : (parse_row ["PTS", "FG"] ["18", "7-12"]).map ParsedLine.fgm = some 7 := by decide

/-! ## The box-score normalizer of `dump_boxscores` (claim C2)

`extract_rows_from_boxscore` walks the "shape A" nesting
`box["teams"][i]["statistics"][j]["athletes"][k]` and then the "shape B"
nesting `box["players"][i]["statistics"][j]["athletes"][k]`, feeding every
athlete row of both walks through the same `take` closure.

ESPN's per-athlete `stats` entries are dicts `{"name": …, "value": …}` whose
`value` field is numeric; it is modelled as `Int` (so the `int(... or 0)`
coercion in `take` is the identity and `minutes`, which the code leaves as the
raw looked-up value with default `""`, is modelled as `Option Int` with `none`
for the missing / `""` case). -/

structure StatEntry where
  sname : Option String
  value : Int
  deriving DecidableEq, Repr

structure AthleteRef where
  aid : Option String
  displayName : Option String
  deriving DecidableEq, Repr

structure AthleteRow where
  athlete : Option AthleteRef
  stats : List StatEntry
  deriving DecidableEq, Repr

structure StatGroup where
  athletes : List AthleteRow
  deriving DecidableEq, Repr

structure TeamMeta where
  tid : Option String
  displayName : Option String
  deriving DecidableEq, Repr

structure BoxSide where
  team : Option TeamMeta
  statistics : List StatGroup
  deriving DecidableEq, Repr

structure Boxscore where
  teams : List BoxSide
  players : List BoxSide
  deriving DecidableEq, Repr

structure OutRow where
  team_id : String
  team_name : String
  player_id : String
  player_name : String
  minutes : Option Int
  pts : Int
  reb : Int
  ast : Int
  stl : Int
  blk : Int
  tov : Int
  fgm : Int
  fga : Int
  tpm : Int
  tpa : Int
  ftm : Int
  fta : Int
  deriving DecidableEq, Repr

/-- `{s["name"]: s.get("value",0) for s in (row.get("stats") or []) if ... "name" in s}`. -/
def statMapOf (row : AthleteRow) : List (String × Int) :=
  row.stats.filterMap fun e => e.sname.map fun n => (n, e.value)

/-- Dict lookup on the comprehension result (later duplicates win). -/
def statGet (m : List (String × Int)) (k : String) : Option Int :=
  m.reverse.lookup k

/-- The `take(team_meta, athlete_row, stat_map)` closure of
`extract_rows_from_boxscore`: `none` when the display name is empty after
stripping (the guard `if not nm: return`). -/
def takeRow (tmeta : TeamMeta) (row : AthleteRow) : Option OutRow :=
  let ath := row.athlete.getD ⟨none, none⟩
  let nm := pyStrip (ath.displayName.getD "")
  if nm = "" then none
  else
    let m := statMapOf row
    some
      { team_id := tmeta.tid.getD ""
        team_name := tmeta.displayName.getD ""
        player_id := pyOrS (ath.aid.getD "") nm
        player_name := nm
        minutes := statGet m "minutes"
        pts := (statGet m "points").getD 0
        reb := (statGet m "rebounds").getD 0
        ast := (statGet m "assists").getD 0
        stl := (statGet m "steals").getD 0
        blk := (statGet m "blocks").getD 0
        tov := (statGet m "turnovers").getD 0
        fgm := (statGet m "fieldGoalsMade").getD 0
        fga := (statGet m "fieldGoalsAttempted").getD 0
        tpm := (statGet m "threePointFieldGoalsMade").getD 0
        tpa := (statGet m "threePointFieldGoalsAttempted").getD 0
        ftm := (statGet m "freeThrowsMade").getD 0
        fta := (statGet m "freeThrowsAttempted").getD 0 }

/-- One side of either shape: `side.get("team") or {}` then every athlete of
every stat group through `take`. -/
def sideRows (side : BoxSide) : List OutRow :=
  side.statistics.flatMap fun g => g.athletes.filterMap (takeRow (side.team.getD ⟨none, none⟩))

/-- `dump_boxscores.extract_rows_from_boxscore`: the shape-A loop over
`box["teams"]` followed unconditionally by the shape-B loop over
`box["players"]`, appending to the same `rows` list. -/
def extract_rows_from_boxscore (box : Boxscore) : List OutRow :=
  box.teams.flatMap sideRows ++ box.players.flatMap sideRows

/-! ## Persistence layer (claims C1, C7)

The SQLite tables (created by `ensure_schema` / `db()`) are modelled as lists
of rows in insertion order.  `INSERT OR IGNORE` leaves the table untouched
when the new row conflicts with an existing one on any uniqueness constraint;
`INSERT OR REPLACE` deletes every conflicting row and appends the new one —
exactly SQLite's documented conflict resolution. -/

structure PlayerRow where
  player_id : String
  player_name : String
  team_id : String
  deriving DecidableEq, Repr

structure TeamRow where
  team_id : String
  team_name : String
  team_slug : String
  conference : String
  deriving DecidableEq, Repr

structure GameRow where
  game_id : String
  date : String
  home_team : String
  away_team : String
  status : String
  season_year : Int
  deriving DecidableEq, Repr

structure StatRow where
  player_id : String
  game_id : String
  minutes : String
  pts : Int
  reb : Int
  ast : Int
  stl : Int
  blk : Int
  tov : Int
  fgm : Int
  fga : Int
  tpm : Int
  tpa : Int
  ftm : Int
  fta : Int
  deriving DecidableEq, Repr

/-- `upsert_player` (`cbb_tracker.py:104`, `espn_sync.py:39`, and the inline
insert in `sync_all_boxscores.record_row`): `INSERT OR IGNORE INTO players`.
The `players` table has `player_id` as primary key and (in `cbb_tracker.py`
and `espn_sync.py`) `UNIQUE(player_name, team_id)`; a conflict on either
constraint leaves the table unchanged. -/
def upsert_player (tbl : List PlayerRow) (r : PlayerRow) : List PlayerRow :=
  if tbl.any (fun q => q.player_id == r.player_id ||
      (q.player_name == r.player_name && q.team_id == r.team_id)) then tbl
  else tbl ++ [r]

/-- The `INSERT OR IGNORE INTO teams` of all three sync scripts
(`teams.team_id` is the primary key). -/
def upsert_team (tbl : List TeamRow) (r : TeamRow) : List TeamRow :=
  if tbl.any (fun q => q.team_id == r.team_id) then tbl else tbl ++ [r]

/-- `upsert_game` (`cbb_tracker.py:99`, `espn_sync.py:33`, inline in
`sync_all_boxscores.main`): `INSERT OR REPLACE INTO games`, conflicting on
the `game_id` primary key. -/
def upsert_game (tbl : List GameRow) (r : GameRow) : List GameRow :=
  tbl.filter (fun q => !(q.game_id == r.game_id)) ++ [r]

/-- `upsert_line` (`cbb_tracker.py:109`, `espn_sync.py:43`, inline in
`sync_all_boxscores.record_row`): `INSERT OR REPLACE INTO player_game_stats`,
conflicting on the composite primary key `(player_id, game_id)` declared by
`ensure_schema`. -/
def upsert_line (tbl : List StatRow) (r : StatRow) : List StatRow :=
  tbl.filter (fun q => !(q.player_id == r.player_id && q.game_id == r.game_id)) ++ [r]

/-- The rows of the `player_game_stats` table holding the line of player `p`
in game `g`. -/
def filterKey (tbl : List StatRow) (p g : String) : List StatRow :=
  tbl.filter (fun q => q.player_id == p && q.game_id == g)

/-- A run of stat-line ingestions: each fetched row is upserted in turn. -/
def ingest (tbl : List StatRow) (ops : List StatRow) : List StatRow :=
  ops.foldl upsert_line tbl

/-! ## Team-identity resolution (claim C6)

`dump_boxscores.resolve_team_id`.  The two network-touching branches (an
all-digit id, a hit in the hand-curated `TEAM_ID_MAP` alias table) fetch the
team's display metadata; the fetch is abstracted as an oracle
`info : String → TeamInfo`.  The fallback scans the full catalog. -/

structure TeamInfo where
  slug : Option String
  shortDisplayName : Option String
  displayName : Option String
  deriving DecidableEq, Repr

structure CatalogTeam where
  cid : Option String
  displayName : Option String
  shortDisplayName : Option String
  abbreviation : Option String
  location : Option String
  cname : Option String
  slug : Option String
  deriving DecidableEq, Repr

structure League where
  teams : List CatalogTeam
  deriving DecidableEq, Repr

structure Sport where
  leagues : List League
  deriving DecidableEq, Repr

structure Catalog where
  sports : List Sport
  deriving DecidableEq, Repr

/-- `TEAM_ID_MAP = {"duke": "150"}`. -/
def TEAM_ID_MAP : List (String × String) := [("duke", "150")]

/-- `info.get("slug") or info.get("shortDisplayName") or info.get("displayName") or tid`. -/
def slugOfInfo (ti : TeamInfo) (tid : String) : String :=
  pyOrS ((otruthy ti.slug).getD "")
    (pyOrS ((otruthy ti.shortDisplayName).getD "")
      (pyOrS ((otruthy ti.displayName).getD "") tid))

/-- The `" ".join([...]).lower()` haystack built from the six catalog fields
(`id`, `displayName`, `shortDisplayName`, `abbreviation`, `location`, `name`). -/
def fieldsOf (t : CatalogTeam) : String :=
  pyLower (String.intercalate " "
    [(otruthy t.cid).getD "", (otruthy t.displayName).getD "",
     (otruthy t.shortDisplayName).getD "", (otruthy t.abbreviation).getD "",
     (otruthy t.location).getD "", (otruthy t.cname).getD ""])

/-- `startsWithL n h`: `n` is a prefix of `h` (helper for `pySubstr`). -/
def startsWithL : List Char → List Char → Bool
  | [], _ => true
  | _ :: _, [] => false
  | a :: n, b :: h => a == b && startsWithL n h

/-- Containment of one character list in another as a contiguous run. -/
def isSubL (n : List Char) : List Char → Bool
  | [] => startsWithL n []
  | b :: h => startsWithL n (b :: h) || isSubL n h

/-- Python's `key in fields` on strings: contiguous-substring containment. -/
def pySubstr (needle hay : String) : Bool :=
  isSubL needle.data hay.data

/-- Catalog teams in scan order (`sports` → `leagues` → `teams`). -/
def allTeams (cat : Catalog) : List CatalogTeam :=
  (cat.sports.flatMap Sport.leagues).flatMap League.teams

/-- The slug chain of the scan branch:
`info.get("slug") or shortDisplayName or abbreviation or name or tid`. -/
def scanSlug (t : CatalogTeam) : String :=
  pyOrS ((otruthy t.slug).getD "")
    (pyOrS ((otruthy t.shortDisplayName).getD "")
      (pyOrS ((otruthy t.abbreviation).getD "")
        (pyOrS ((otruthy t.cname).getD "") (pyStrOpt t.cid))))

/-- The catalog scan of `resolve_team_id`: first team whose joined fields
contain the key, in iteration order. -/
def scanCatalog (key : String) (cat : Catalog) : Option (String × String) :=
  ((allTeams cat).find? fun t => pySubstr key (fieldsOf t)).map
    fun t => (pyStrOpt t.cid, scanSlug t)

/-- `dump_boxscores.resolve_team_id`; `Except.error` models the terminal
`raise SystemExit(f"Could not resolve team ...")`. -/
def resolve_team_id (info : String → TeamInfo) (cat : Catalog)
    (team_name_or_id : String) : Except String (String × String) :=
  if pyIsDigit team_name_or_id then
    .ok (team_name_or_id, slugOfInfo (info team_name_or_id) team_name_or_id)
  else
    match TEAM_ID_MAP.lookup (pyLower (pyStrip team_name_or_id)) with
    | some tid => .ok (tid, slugOfInfo (info tid) tid)
    | none =>
      match scanCatalog (pyLower (pyStrip team_name_or_id)) cat with
      | some r => .ok r
      | none => .error ("Could not resolve team " ++ team_name_or_id)

/-! ## Player-id derivation (claim C9) -/

/-- `pid = str(ath.get("id") or nm)` in `sync_all_boxscores.record_row`
(line 175): the provider athlete id when present and truthy, otherwise the
bare display name. -/
def record_row_pid (aid : Option String) (nm : String) : String :=
  match otruthy aid with
  | some s => s
  | none => nm

/-- `pid = str(ath.get("id") or nm)` in `espn_sync.handle_rows` (line 116). -/
def handle_rows_pid (aid : Option String) (nm : String) : String :=
  match otruthy aid with
  | some s => s
  | none => nm

/-- `pid = str(row.get("personId") or row.get("id") or f"{nm}|{tid}")` in
`cbb_tracker.sync` (line 202): provider ids first, then the synthesized weak
identity `name|team_id`. -/
def cbb_sync_pid (personId idv : Option String) (nm tid : String) : String :=
  match otruthy personId with
  | some s => s
  | none =>
    match otruthy idv with
    | some s => s
    | none => nm ++ "|" ++ tid

/-! ## Schedule-event processing (claims C5, C8, C10)

The per-event loop bodies of `espn_sync.main` (lines 81-156) and
`sync_all_boxscores.main` (lines 138-203) over an ESPN schedule event.
Optional JSON fields are `Option`s with the same `.get(..., default)` chains
as the Python.  The Python indexes `comps[0]`/`comps[1]` directly (an event
with fewer than two competitors would raise `IndexError`); every ESPN schedule
event carries exactly two competitors, and the access is modelled with a
default empty competitor. -/

structure CompTeam where
  displayName : Option String
  deriving DecidableEq, Repr

structure Competitor where
  team : Option CompTeam
  deriving DecidableEq, Repr

structure StatusType where
  state : Option String
  description : Option String
  tname : Option String
  deriving DecidableEq, Repr

structure CompStatus where
  type : Option StatusType
  deriving DecidableEq, Repr

structure Competition where
  cstatus : Option CompStatus
  competitors : List Competitor
  deriving DecidableEq, Repr

structure Event where
  eid : String
  date : String
  seasonYear : Option Int
  competitions : List Competition
  deriving DecidableEq, Repr

/-- `(ev.get("competitions") or [{}])[0]`. -/
def compOf (ev : Event) : Competition :=
  ev.competitions.headD ⟨none, []⟩

/-- `typ = (comp.get("status") or {}).get("type",{}) or {}`. -/
def typOf (ev : Event) : StatusType :=
  ((compOf ev).cstatus.getD ⟨none⟩).type.getD ⟨none, none, none⟩

/-- `state = (typ.get("state","") or "").lower()`. -/
def evState (ev : Event) : String :=
  pyLower ((typOf ev).state.getD "")

/-- `status = typ.get("description","") or typ.get("name","") or state`. -/
def statusText (ev : Event) : String :=
  pyOrS ((typOf ev).description.getD "")
    (pyOrS ((typOf ev).tname.getD "") (evState ev))

/-- `(comps[i].get("team",{}) or {}).get("displayName","")`. -/
def competitorName (ev : Event) (i : Nat) : String :=
  (((compOf ev).competitors.getD i ⟨none⟩).team.getD ⟨none⟩).displayName.getD ""

/-- The `games` row both scripts write for an event: provider id and date,
the two competitor display names, the raw provider status text, and the
*requested* season year. -/
def event_game_row (seasonYear : Int) (ev : Event) : GameRow :=
  { game_id := ev.eid
    date := ev.date
    home_team := competitorName ev 0
    away_team := competitorName ev 1
    status := statusText ev
    season_year := seasonYear }

/-- `if ev_season and int(ev_season) != int(season_year): continue` —
note Python truthiness: an embedded year of `0` (or a missing one) never
triggers the filter. -/
def evSeasonMismatch (evSeason : Option Int) (seasonYear : Int) : Bool :=
  match evSeason with
  | some y => !(y == 0) && !(y == seasonYear)
  | none => false

/-- What `espn_sync.main` does with one schedule event. -/
inductive EspnAction where
  /-- The event was dropped by the embedded-season filter: nothing persisted. -/
  | skip : EspnAction
  /-- A `games` row was upserted and, the state not being `"post"`, no
  box-score summary was fetched and no stat line written. -/
  | gameOnly : GameRow → EspnAction
  /-- A `games` row was upserted and the box-score summary fetched. -/
  | gameAndFetch : GameRow → EspnAction
  deriving DecidableEq, Repr

/-- The loop body of `espn_sync.main`: season filter first (lines 93-95),
then `upsert_game` unconditionally (line 97), then `if state != "post":
continue` guarding the summary fetch (line 100). -/
def espn_process_event (seasonYear : Int) (ev : Event) : EspnAction :=
  if evSeasonMismatch ev.seasonYear seasonYear then .skip
  else if evState ev = "post" then .gameAndFetch (event_game_row seasonYear ev)
  else .gameOnly (event_game_row seasonYear ev)

/-- The loop body of `sync_all_boxscores.main`: `if state != "post": continue`
first (line 142), then the season filter (line 145), and only then the game
upsert and summary fetch.  `some g` means the `games` row `g` was written and
the box score fetched; `none` means the event was skipped with nothing
persisted. -/
def sync_all_process_event (seasonYear : Int) (ev : Event) : Option GameRow :=
  if evState ev = "post" then
    if evSeasonMismatch ev.seasonYear seasonYear then none
    else some (event_game_row seasonYear ev)
  else none

/-- A `games` row of `cbb_tracker.sync` (its `games` table has no
`season_year` column). -/
structure CbbGameRow where
  game_id : String
  date : String
  home_team : String
  away_team : String
  status : String
  deriving DecidableEq, Repr

structure CbbStep where
  game : CbbGameRow
  fetchAttempted : Bool
  deriving DecidableEq, Repr

/-- The per-game loop body of `cbb_tracker.sync` (lines 190-205):
`upsert_game(cur, con, ge)` then `box = game_box(ge["game_id"])` — the code
contains no branch on the game's status, so the box-score fetch is attempted
for every persisted game. -/
def cbb_process_game (g : CbbGameRow) : CbbStep :=
  { game := g, fetchAttempted := true }

/-- The end-of-run `UPDATE games SET status='post' WHERE lower(status) IN
('final','status_final')` of `sync_all_boxscores.main` (line 211), applied to
one row. -/
def normStatus (g : GameRow) : GameRow :=
  if pyLower g.status = "final" || pyLower g.status = "status_final" then
    { g with status := "post" }
  else g

/-- The same `UPDATE` over the whole `games` table. -/
def normalize_games_status (tbl : List GameRow) : List GameRow :=
  tbl.map normStatus

/-! ## Theorems -/

theorem filterKey_upsert_line (tbl : List StatRow) (r : StatRow) (p g : String) :
    filterKey (upsert_line tbl r) p g =
      if r.player_id = p ∧ r.game_id = g then [r] else filterKey tbl p g := by
  unfold filterKey upsert_line
  rw [List.filter_append, List.filter_filter]
  by_cases h : r.player_id = p ∧ r.game_id = g
  · obtain ⟨h1, h2⟩ := h
    subst h1; subst h2
    have hz : ∀ q : StatRow,
        ((q.player_id == r.player_id && q.game_id == r.game_id) &&
          !(q.player_id == r.player_id && q.game_id == r.game_id)) = false := by
      intro q
      cases q.player_id == r.player_id && q.game_id == r.game_id <;> simp
    simp [hz]
  · have hz : ∀ q : StatRow,
        ((q.player_id == p && q.game_id == g) &&
          !(q.player_id == r.player_id && q.game_id == r.game_id)) =
          (q.player_id == p && q.game_id == g) := by
      intro q
      by_cases hq : q.player_id = p ∧ q.game_id = g
      · obtain ⟨hq1, hq2⟩ := hq
        have hf : (q.player_id == r.player_id && q.game_id == r.game_id) = false := by
          by_contra hc
          have hc' : q.player_id = r.player_id ∧ q.game_id = r.game_id := by
            simpa [Bool.and_eq_true, beq_iff_eq] using eq_true_of_ne_false hc
          exact h ⟨hc'.1.symm.trans hq1, hc'.2.symm.trans hq2⟩
        simp [hq1, hq2, hf]
        rw [hq1, hq2] at hf
        by_cases hp2 : p = r.player_id
        · right
          intro hg2
          rw [hp2, hg2] at hf
          simp at hf
        · exact Or.inl hp2
      · have hfq : (q.player_id == p && q.game_id == g) = false := by
          by_contra hc
          exact hq (by simpa [Bool.and_eq_true, beq_iff_eq] using eq_true_of_ne_false hc)
        simp [hfq]
    rw [List.filter_congr (fun q _ => hz q)]
    have hfr : (r.player_id == p && r.game_id == g) = false := by
      by_contra hc
      exact h (by simpa [Bool.and_eq_true, beq_iff_eq] using eq_true_of_ne_false hc)
    simp [hfr, h]

theorem ingest_no_key (ops : List StatRow) : ∀ (tbl : List StatRow) (p g : String),
    filterKey ops p g = [] → filterKey (ingest tbl ops) p g = filterKey tbl p g := by
  induction ops with
  | nil => intro tbl p g _; rfl
  | cons o ops ih =>
    intro tbl p g h
    have hcons : (o.player_id == p && o.game_id == g) = false ∧ filterKey ops p g = [] := by
      by_cases hb : (o.player_id == p && o.game_id == g) = true
      · exfalso
        have : o ∈ filterKey (o :: ops) p g := by
          simp [filterKey, List.filter_cons, hb]
        rw [h] at this
        exact absurd this (List.not_mem_nil o)
      · refine ⟨by simpa using hb, ?_⟩
        have : filterKey (o :: ops) p g = filterKey ops p g := by
          simp [filterKey, List.filter_cons, hb]
        rw [← this, h]
    have hstep : ingest tbl (o :: ops) = ingest (upsert_line tbl o) ops := rfl
    rw [hstep, ih (upsert_line tbl o) p g hcons.2, filterKey_upsert_line]
    have : ¬(o.player_id = p ∧ o.game_id = g) := by
      simpa [Bool.and_eq_true, beq_iff_eq] using hcons.1
    simp [this]

/-- C1: the `player_game_stats` table keyed by the composite primary key
`(player_id, game_id)` holds at most one row per key after any run of
`INSERT OR REPLACE` upserts, and when the run contains at least one upsert for
the key, the surviving row is exactly the last one ingested (re-ingesting the
same game, including with edited stat values, overwrites rather than
duplicates). -/
theorem C1_stat_line_unique_and_latest (tbl ops : List StatRow) (p g : String)
    (hinit : (filterKey tbl p g).length ≤ 1) :
    (filterKey (ingest tbl ops) p g).length ≤ 1 ∧
    (∀ pre r post, ops = pre ++ r :: post →
      r.player_id = p → r.game_id = g → filterKey post p g = [] →
      filterKey (ingest tbl ops) p g = [r]) := by
  constructor
  · induction ops generalizing tbl with
    | nil => simpa [ingest] using hinit
    | cons o ops ih =>
      have hstep : ingest tbl (o :: ops) = ingest (upsert_line tbl o) ops := rfl
      rw [hstep]
      apply ih
      rw [filterKey_upsert_line]
      by_cases h : o.player_id = p ∧ o.game_id = g
      · simp [h]
      · simpa [h] using hinit
  · intro pre r post hops hp hg hpost
    subst hops
    have hsplit : ingest tbl (pre ++ r :: post) =
        ingest (upsert_line (ingest tbl pre) r) post := by
      simp [ingest, List.foldl_append]
    rw [hsplit, ingest_no_key post _ p g hpost, filterKey_upsert_line]
    simp [hp, hg]

def statRowA : StatRow := ⟨"p1", "g1", "30", 10, 5, 2, 1, 0, 3, 4, 9, 1, 3, 1, 2⟩

def statRowB : StatRow := ⟨"p1", "g1", "31", 12, 5, 2, 1, 0, 3, 5, 9, 1, 3, 1, 2⟩

/-- Witness for C1: ingesting the same `(player, game)` line twice with an
edited points value leaves exactly the edited row. -/
theorem C1_witness : filterKey (ingest [] [statRowA, statRowB]) "p1" "g1" = [statRowB] :=
  (C1_stat_line_unique_and_latest [] [statRowA, statRowB] "p1" "g1" (by decide)).2
    [statRowA] statRowB [] rfl rfl rfl rfl

/-- C7: the two write modes of the persistence layer.  `INSERT OR IGNORE`
(`upsert_player`, `upsert_team`) is a no-op whenever the incoming row
conflicts with an existing row on a uniqueness constraint — the existing row
(indeed the whole table) is left unchanged; `INSERT OR REPLACE`
(`upsert_game`, `upsert_line`) leaves the new row as the *only* row under its
key — every field of the stored row is the new value — while rows under other
keys are preserved. -/
theorem C7_write_modes :
    (∀ (tbl : List PlayerRow) (r : PlayerRow),
      tbl.any (fun q => q.player_id == r.player_id ||
        (q.player_name == r.player_name && q.team_id == r.team_id)) = true →
      upsert_player tbl r = tbl) ∧
    (∀ (tbl : List TeamRow) (r : TeamRow),
      tbl.any (fun q => q.team_id == r.team_id) = true → upsert_team tbl r = tbl) ∧
    (∀ (tbl : List GameRow) (r q : GameRow), q ∈ upsert_game tbl r →
      q.game_id = r.game_id → q = r) ∧
    (∀ (tbl : List GameRow) (r : GameRow), r ∈ upsert_game tbl r) ∧
    (∀ (tbl : List GameRow) (r q : GameRow), q ∈ tbl → q.game_id ≠ r.game_id →
      q ∈ upsert_game tbl r) ∧
    (∀ (tbl : List StatRow) (r q : StatRow), q ∈ upsert_line tbl r →
      q.player_id = r.player_id → q.game_id = r.game_id → q = r) ∧
    (∀ (tbl : List StatRow) (r : StatRow), r ∈ upsert_line tbl r) := by
  refine ⟨?_, ?_, ?_, ?_, ?_, ?_, ?_⟩
  · intro tbl r h; simp [upsert_player, h]
  · intro tbl r h; simp [upsert_team, h]
  · intro tbl r q hq hid
    rcases List.mem_append.mp hq with hl | hr
    · have := List.of_mem_filter hl
      simp [hid] at this
    · simpa using hr
  · intro tbl r; exact List.mem_append.mpr (Or.inr (by simp))
  · intro tbl r q hq hne
    refine List.mem_append.mpr (Or.inl (List.mem_filter.mpr ⟨hq, ?_⟩))
    simpa using hne
  · intro tbl r q hq h1 h2
    rcases List.mem_append.mp hq with hl | hr
    · have := List.of_mem_filter hl
      simp [h1, h2] at this
    · simpa using hr
  · intro tbl r; exact List.mem_append.mpr (Or.inr (by simp))

def playerRowA : PlayerRow := ⟨"123", "Jane Doe", "150"⟩

def playerRowB : PlayerRow := ⟨"123", "Jane D.", "150"⟩

def gameRowA : GameRow := ⟨"401", "2026-01-10", "Duke", "UNC", "post", 2026⟩

/-- Witness for C7: re-inserting a player under an existing id leaves the
table unchanged, and a replaced game row is present after the upsert. -/
theorem C7_witness :
    upsert_player [playerRowA] playerRowB = [playerRowA] ∧
    gameRowA ∈ upsert_game [] gameRowA :=
  ⟨C7_write_modes.1 [playerRowA] playerRowB (by decide),
   C7_write_modes.2.2.2.1 [] gameRowA⟩

/-- C2: `extract_rows_from_boxscore` processes both nesting conventions on
every document with no shape discriminator — its output is the shape-A walk
over `box["teams"]` followed by the shape-B walk over `box["players"]`, both
through the same per-side extraction; the `take` closure drops a row exactly
when its stripped display name is empty; and every athlete row of either
shape that yields a record has that record in the output. -/
theorem C2_both_shapes_processed (box : Boxscore) :
    extract_rows_from_boxscore box =
      box.teams.flatMap sideRows ++ box.players.flatMap sideRows ∧
    (∀ (tm : TeamMeta) (row : AthleteRow), takeRow tm row = none ↔
      pyStrip ((row.athlete.getD ⟨none, none⟩).displayName.getD "") = "") ∧
    (∀ side : BoxSide, side ∈ box.teams ∨ side ∈ box.players →
      ∀ grp ∈ side.statistics, ∀ row ∈ grp.athletes, ∀ r : OutRow,
        takeRow (side.team.getD ⟨none, none⟩) row = some r →
        r ∈ extract_rows_from_boxscore box) := by
  refine ⟨rfl, ?_, ?_⟩
  · intro tm row
    unfold takeRow
    by_cases h : pyStrip ((row.athlete.getD ⟨none, none⟩).displayName.getD "") = ""
    · simp [h]
    · simp [h]
  · intro side hside grp hgrp row hrow r hr
    have hmem : r ∈ sideRows side := by
      unfold sideRows
      exact List.mem_flatMap.mpr ⟨grp, hgrp, List.mem_filterMap.mpr ⟨row, hrow, hr⟩⟩
    unfold extract_rows_from_boxscore
    rcases hside with hA | hB
    · exact List.mem_append.mpr (Or.inl (List.mem_flatMap.mpr ⟨side, hA, hmem⟩))
    · exact List.mem_append.mpr (Or.inr (List.mem_flatMap.mpr ⟨side, hB, hmem⟩))

def athleteEx : AthleteRow :=
  { athlete := some ⟨some "123", some "Jane Doe"⟩
    stats := [⟨some "points", 18⟩, ⟨some "rebounds", 7⟩] }

def sideEx : BoxSide :=
  { team := some ⟨some "150", some "Duke Blue Devils"⟩
    statistics := [⟨[athleteEx]⟩] }

def boxEx : Boxscore := { teams := [], players := [sideEx] }

def outRowEx : OutRow :=
  { team_id := "150", team_name := "Duke Blue Devils", player_id := "123"
    player_name := "Jane Doe", minutes := none, pts := 18, reb := 7
    ast := 0, stl := 0, blk := 0, tov := 0, fgm := 0, fga := 0
    tpm := 0, tpa := 0, ftm := 0, fta := 0 }

/-- Witness for C2: an athlete row found only under the shape-B
(`players[].statistics[].athletes[]`) nesting is emitted. -/
theorem C2_witness : outRowEx ∈ extract_rows_from_boxscore boxEx :=
  (C2_both_shapes_processed boxEx).2.2 sideEx (Or.inr (by simp [boxEx]))
    ⟨[athleteEx]⟩ (by simp [sideEx]) athleteEx (by simp) outRowEx (by decide)

/-- C3 counterexample: the claim says parsing a stat cell *never* propagates
an error out of the normalizer, but only the combined made-attempted strings
go through the guarded `fg_pair`; a plain numeric cell such as `PTS = "DNP"`
reaches a bare `int()` call, whose `ValueError` (modelled by `none`) escapes
`parse_row` and aborts the whole row. -/
theorem C3_counterexample : parse_row ["PTS"] ["DNP"] = none := by decide

/-- C3 amended: the zero-on-failure guarantee holds for the combined
made-attempted strings — `fg_pair` totalizes every failure to `(0, 0)`,
`"7-12"` splits to `(7, 12)` and `"DNP"` yields `(0, 0)` — and a row whose
cells parse goes through; but an unparsable plain numeric cell (e.g.
`PTS = "DNP"`) raises out of `parse_row` instead of degrading to zero. -/
theorem C3_amended_fg_pair_totalizes :
    fg_pair "7-12" = (7, 12) ∧ fg_pair "DNP" = (0, 0) ∧
    (∀ s : String, fg_pair s = (0, 0) ∨
      ∃ a b x y, pySplitDash s.data = [a, b] ∧ pyIntL a = some x ∧
        pyIntL b = some y ∧ fg_pair s = (x, y)) ∧
    parse_row ["PTS", "FG"] ["18", "7-12"] =
      some ⟨"", 18, 0, 0, 0, 0, 0, 7, 12, 0, 0, 0, 0⟩ := by
  refine ⟨by decide, by decide, ?_, by decide⟩
  intro s
  unfold fg_pair
  rcases hs : pySplitDash s.data with _ | ⟨a, _ | ⟨b, _ | ⟨c, t⟩⟩⟩
  · exact Or.inl rfl
  · exact Or.inl rfl
  · rcases ha : pyIntL a with _ | x
    · exact Or.inl (by simp [ha])
    · rcases hb : pyIntL b with _ | y
      · exact Or.inl (by simp [ha, hb])
      · exact Or.inr ⟨a, b, x, y, rfl, ha, hb, by simp [ha, hb]⟩
  · exact Or.inl rfl

/-- C9 counterexample: in `sync_all_boxscores.record_row` an athlete row with
no provider id gets the bare display name as its stored player id, not the
synthesized `name|team_id` weak identity the claim requires. -/
theorem C9_counterexample :
    record_row_pid none "John Doe" = "John Doe" ∧
    record_row_pid none "John Doe" ≠ "John Doe" ++ "|" ++ "150" := by decide

/-- C9 amended: only `cbb_tracker.sync` synthesizes the `name|team_id` weak
identity when the provider omits both `personId` and `id`; the ESPN-based
normalizers (`sync_all_boxscores.record_row`, `espn_sync.handle_rows`) fall
back to the bare display name.  All of them prefer the provider id when it is
present and non-empty. -/
theorem C9_amended_pid_fallbacks :
    (∀ nm tid, cbb_sync_pid none none nm tid = nm ++ "|" ++ tid) ∧
    (∀ s nm tid, s ≠ "" → cbb_sync_pid (some s) none nm tid = s) ∧
    (∀ nm, record_row_pid none nm = nm) ∧
    (∀ s nm, s ≠ "" → record_row_pid (some s) nm = s) ∧
    (∀ nm, handle_rows_pid none nm = nm) ∧
    (∀ s nm, s ≠ "" → handle_rows_pid (some s) nm = s) := by
  refine ⟨fun nm tid => rfl, ?_, fun nm => rfl, ?_, fun nm => rfl, ?_⟩
  · intro s nm tid h; simp [cbb_sync_pid, otruthy, h]
  · intro s nm h; simp [record_row_pid, otruthy, h]
  · intro s nm h; simp [handle_rows_pid, otruthy, h]

/-- Witness for C9 (amended): a present provider id is preferred verbatim. -/
theorem C9_witness : cbb_sync_pid (some "9001") none "John Doe" "150" = "9001" :=
  C9_amended_pid_fallbacks.2.1 "9001" "John Doe" "150" (by decide)

theorem not_ws_of_digit (c : Char) (h : isPyDigitChar c = true) : isPyWS c = false := by
  simp only [isPyDigitChar, Bool.and_eq_true, decide_eq_true_eq] at h
  have h32 : (' ' : Char).toNat = 32 := by decide
  have h9 : ('\t' : Char).toNat = 9 := by decide
  have h10 : ('\n' : Char).toNat = 10 := by decide
  have h13 : ('\r' : Char).toNat = 13 := by decide
  simp only [isPyWS, Bool.or_eq_false_iff, decide_eq_false_iff_not]
  refine ⟨⟨⟨⟨⟨?_, ?_⟩, ?_⟩, ?_⟩, ?_⟩, ?_⟩ <;>
    (intro hc; rw [hc] at h; omega)

theorem hyphenParse_digits (d1 d2 d3 d4 e1 e2 : Char)
    (h1 : isPyDigitChar d1 = true) (h2 : isPyDigitChar d2 = true)
    (h3 : isPyDigitChar d3 = true) (h4 : isPyDigitChar d4 = true)
    (h5 : isPyDigitChar e1 = true) (h6 : isPyDigitChar e2 = true) :
    hyphenParse ⟨[d1, d2, d3, d4, '-', e1, e2]⟩ =
      some (digitsToNat [d1, d2, d3, d4], digitsToNat [e1, e2]) := by
  have hdashd : isPyDigitChar '-' = false := by decide
  have hdashw : isPyWS '-' = false := by decide
  simp [hyphenParse, dropWS, List.dropWhile_cons, List.takeWhile_cons,
        not_ws_of_digit _ h1, not_ws_of_digit _ h5, not_ws_of_digit _ h6,
        h1, h2, h3, h4, h5, h6, hdashd, hdashw]

theorem bareParse_digits (d1 d2 d3 d4 : Char)
    (h1 : isPyDigitChar d1 = true) (h2 : isPyDigitChar d2 = true)
    (h3 : isPyDigitChar d3 = true) (h4 : isPyDigitChar d4 = true) :
    hyphenParse ⟨[d1, d2, d3, d4]⟩ = none ∧
    bareParse ⟨[d1, d2, d3, d4]⟩ = some (digitsToNat [d1, d2, d3, d4]) := by
  constructor
  · simp [hyphenParse, dropWS, List.dropWhile_cons, List.takeWhile_cons,
          not_ws_of_digit _ h1, h1, h2, h3, h4]
  · simp [bareParse, dropWS, List.dropWhile_cons, List.takeWhile_cons,
          not_ws_of_digit _ h1, h1, h2, h3, h4]

theorem espnPrefixParse_digits (d1 d2 d3 d4 e1 e2 : Char)
    (h1 : isPyDigitChar d1 = true) (h2 : isPyDigitChar d2 = true)
    (h3 : isPyDigitChar d3 = true) (h4 : isPyDigitChar d4 = true)
    (h5 : isPyDigitChar e1 = true) (h6 : isPyDigitChar e2 = true) :
    espnPrefixParse ⟨[d1, d2, d3, d4, '-', e1, e2]⟩ =
      some (digitsToNat [d1, d2, d3, d4]) := by
  simp [espnPrefixParse, h1, h2, h3, h4, h5, h6]

/-- C4 counterexample: the claim requires every season-derivation function to
map a bare four-digit string to that integer (and to reject anything else),
but `espn_sync.season_to_year` maps `"2024"` to its hard-coded fallback
`2026`, neither deriving `2024` nor rejecting the input. -/
theorem C4_counterexample :
    espn_season_to_year "2024" = 2026 ∧ espn_season_to_year "2024" ≠ 2024 := by
  decide

/-- C4 amended: every `YYYY-YY` season string derives `YYYY+1` in all four
derivation functions (the two-digit suffix is *not* validated against
`YYYY+1`, as the `"2025-99"` conjunct shows); a bare four-digit string
derives that integer in `sync_all_boxscores.season_to_year`,
`dump_boxscores.season_to_year` and the `player_boxscores` inline derivation,
while `espn_sync.season_to_year` returns the fallback `2026` for it; inputs
matching neither pattern are rejected (`SystemExit`) only by the
`sync_all_boxscores`/`dump_boxscores` variants — `espn_sync` and
`player_boxscores` fall back to `2026` instead. -/
theorem C4_amended_season_derivation :
    (∀ d1 d2 d3 d4 e1 e2 : Char, isPyDigitChar d1 = true → isPyDigitChar d2 = true →
      isPyDigitChar d3 = true → isPyDigitChar d4 = true → isPyDigitChar e1 = true →
      isPyDigitChar e2 = true →
      sync_all_season_to_year ⟨[d1, d2, d3, d4, '-', e1, e2]⟩ =
          some (digitsToNat [d1, d2, d3, d4] + 1) ∧
      dump_season_to_year ⟨[d1, d2, d3, d4, '-', e1, e2]⟩ =
          some (digitsToNat [d1, d2, d3, d4] + 1) ∧
      player_boxscores_season_year ⟨[d1, d2, d3, d4, '-', e1, e2]⟩ =
          digitsToNat [d1, d2, d3, d4] + 1 ∧
      espn_season_to_year ⟨[d1, d2, d3, d4, '-', e1, e2]⟩ =
          digitsToNat [d1, d2, d3, d4] + 1) ∧
    (∀ d1 d2 d3 d4 : Char, isPyDigitChar d1 = true → isPyDigitChar d2 = true →
      isPyDigitChar d3 = true → isPyDigitChar d4 = true →
      sync_all_season_to_year ⟨[d1, d2, d3, d4]⟩ = some (digitsToNat [d1, d2, d3, d4]) ∧
      dump_season_to_year ⟨[d1, d2, d3, d4]⟩ = some (digitsToNat [d1, d2, d3, d4]) ∧
      player_boxscores_season_year ⟨[d1, d2, d3, d4]⟩ = digitsToNat [d1, d2, d3, d4] ∧
      espn_season_to_year ⟨[d1, d2, d3, d4]⟩ = 2026) ∧
    (∀ s : String, hyphenParse s = none → bareParse s = none →
      sync_all_season_to_year s = none ∧ dump_season_to_year s = none ∧
      player_boxscores_season_year s = 2026) ∧
    (∀ s : String, espnPrefixParse s = none → espn_season_to_year s = 2026) ∧
    sync_all_season_to_year "2025-99" = some 2026 := by
  refine ⟨?_, ?_, ?_, ?_, by decide⟩
  · intro d1 d2 d3 d4 e1 e2 h1 h2 h3 h4 h5 h6
    have hh := hyphenParse_digits d1 d2 d3 d4 e1 e2 h1 h2 h3 h4 h5 h6
    have he := espnPrefixParse_digits d1 d2 d3 d4 e1 e2 h1 h2 h3 h4 h5 h6
    exact ⟨by simp [sync_all_season_to_year, hh], by simp [dump_season_to_year, hh],
           by simp [player_boxscores_season_year, hh], by simp [espn_season_to_year, he]⟩
  · intro d1 d2 d3 d4 h1 h2 h3 h4
    obtain ⟨hh, hb⟩ := bareParse_digits d1 d2 d3 d4 h1 h2 h3 h4
    have he : espnPrefixParse ⟨[d1, d2, d3, d4]⟩ = none := rfl
    exact ⟨by simp [sync_all_season_to_year, hh, hb], by simp [dump_season_to_year, hh, hb],
           by simp [player_boxscores_season_year, hh, hb], by simp [espn_season_to_year, he]⟩
  · intro s hh hb
    exact ⟨by simp [sync_all_season_to_year, hh, hb], by simp [dump_season_to_year, hh, hb],
           by simp [player_boxscores_season_year, hh, hb]⟩
  · intro s he
    simp [espn_season_to_year, he]

/-- Witness for C4 (amended): `"2025-26"` derives `2026` in the
`sync_all_boxscores` variant. -/
theorem C4_witness :
    sync_all_season_to_year ⟨['2', '0', '2', '5', '-', '2', '6']⟩ =
      some (digitsToNat ['2', '0', '2', '5'] + 1) :=
  (C4_amended_season_derivation.1 '2' '0' '2' '5' '2' '6' (by decide) (by decide)
    (by decide) (by decide) (by decide) (by decide)).1

def evScheduled : Event :=
  { eid := "401750001"
    date := "2026-01-10T00:00Z"
    seasonYear := some 2026
    competitions :=
      [{ cstatus := some ⟨some ⟨some "pre", some "Scheduled", some "STATUS_SCHEDULED"⟩⟩
         competitors := [⟨some ⟨some "Duke Blue Devils"⟩⟩, ⟨some ⟨some "Kansas Jayhawks"⟩⟩] }] }

/-- C5 counterexample: for a season-matching event in the scheduled
(non-"post") state, `sync_all_boxscores.main` hits `if state != "post":
continue` *before* the game upsert, so contrary to the claim no `games` row
at all is persisted for it (`none`: nothing written, nothing fetched). -/
theorem C5_counterexample : sync_all_process_event 2026 evScheduled = none := by
  decide

/-- C5 amended: only `espn_sync.main` persists a `games` row for a
season-matching event whose lifecycle state is not `"post"` while skipping the
box-score fetch; `sync_all_boxscores.main` skips such events entirely (no
`games` row, no fetch, no error); and `cbb_tracker.sync` attempts the
box-score fetch for every persisted game regardless of its state. -/
theorem C5_amended_noncompleted_events :
    (∀ (sy : Int) (ev : Event), evState ev ≠ "post" →
      evSeasonMismatch ev.seasonYear sy = false →
      espn_process_event sy ev = .gameOnly (event_game_row sy ev)) ∧
    (∀ (sy : Int) (ev : Event), evState ev ≠ "post" →
      sync_all_process_event sy ev = none) ∧
    (∀ g : CbbGameRow,
      (cbb_process_game g).fetchAttempted = true ∧ (cbb_process_game g).game = g) := by
  refine ⟨?_, ?_, fun g => ⟨rfl, rfl⟩⟩
  · intro sy ev hstate hseason
    simp [espn_process_event, hseason, hstate]
  · intro sy ev hstate
    simp [sync_all_process_event, hstate]

/-- Witness for C5 (amended): `espn_sync` writes the game row for the
scheduled event and does not fetch its box score. -/
theorem C5_witness :
    espn_process_event 2026 evScheduled = .gameOnly (event_game_row 2026 evScheduled) :=
  C5_amended_noncompleted_events.1 2026 evScheduled (by decide) (by decide)

def dukeCatalogTeam : CatalogTeam :=
  { cid := some "7"
    displayName := some "Duke Blue Devils"
    shortDisplayName := none
    abbreviation := none
    location := none
    cname := none
    slug := some "duke" }

def catalogEx : Catalog := ⟨[⟨[⟨[dukeCatalogTeam]⟩]⟩]⟩

def infoNone : String → TeamInfo := fun _ => ⟨none, none, none⟩

/-- C6 counterexample: the input `"Blue"` is not purely numeric, is not in
the alias table, and equals *none* of the six catalog fields of the only
team (case-insensitively) — the claim says resolution must fail — yet
`resolve_team_id` succeeds, because the scan tests substring containment in
the space-joined fields, not exact equality. -/
theorem C6_counterexample :
    resolve_team_id infoNone catalogEx "Blue" = .ok ("7", "duke") ∧
    pyIsDigit "Blue" = false ∧
    TEAM_ID_MAP.lookup (pyLower (pyStrip "Blue")) = none ∧
    pyLower (dukeCatalogTeam.cid.getD "") ≠ pyLower (pyStrip "Blue") ∧
    pyLower (dukeCatalogTeam.displayName.getD "") ≠ pyLower (pyStrip "Blue") ∧
    pyLower (dukeCatalogTeam.shortDisplayName.getD "") ≠ pyLower (pyStrip "Blue") ∧
    pyLower (dukeCatalogTeam.abbreviation.getD "") ≠ pyLower (pyStrip "Blue") ∧
    pyLower (dukeCatalogTeam.location.getD "") ≠ pyLower (pyStrip "Blue") ∧
    pyLower (dukeCatalogTeam.cname.getD "") ≠ pyLower (pyStrip "Blue") := by
  refine ⟨rfl, by decide, rfl, by decide, by decide, by decide, by decide, by decide, by decide⟩

/-- C6 amended: for a non-numeric input missing from the alias table,
`resolve_team_id` scans the catalog and succeeds exactly when the stripped,
lowercased input occurs as a *substring* of some team's space-joined six
fields (id, display name, short display name, abbreviation, location, short
name) — the first such team in scan order wins — and raises the resolution
`SystemExit` only when no team's joined fields contain the input. -/
theorem C6_amended_substring_resolution (info : String → TeamInfo) (cat : Catalog)
    (input : String) (hd : pyIsDigit input = false)
    (ha : TEAM_ID_MAP.lookup (pyLower (pyStrip input)) = none) :
    ((∃ r, resolve_team_id info cat input = .ok r) ↔
      ∃ t ∈ allTeams cat, pySubstr (pyLower (pyStrip input)) (fieldsOf t) = true) ∧
    (∀ t : CatalogTeam,
      (allTeams cat).find? (fun u => pySubstr (pyLower (pyStrip input)) (fieldsOf u)) =
        some t →
      resolve_team_id info cat input = .ok (pyStrOpt t.cid, scanSlug t)) ∧
    ((∀ t ∈ allTeams cat, pySubstr (pyLower (pyStrip input)) (fieldsOf t) = false) →
      resolve_team_id info cat input = .error ("Could not resolve team " ++ input)) := by
  refine ⟨?_, ?_, ?_⟩
  · constructor
    · rintro ⟨r, hr⟩
      unfold resolve_team_id at hr
      rw [if_neg (by simp [hd])] at hr
      rw [ha] at hr
      rcases hscan : scanCatalog (pyLower (pyStrip input)) cat with _ | t
      · rw [hscan] at hr
        exact absurd hr (by simp)
      · unfold scanCatalog at hscan
        rcases hfind : (allTeams cat).find?
            (fun t => pySubstr (pyLower (pyStrip input)) (fieldsOf t)) with _ | u
        · rw [hfind] at hscan; exact absurd hscan (by simp)
        · have hp :=
            @List.find?_some CatalogTeam
              (fun t => pySubstr (pyLower (pyStrip input)) (fieldsOf t)) u (allTeams cat) hfind
          exact ⟨u, List.mem_of_find?_eq_some hfind, hp⟩
    · rintro ⟨t, hmem, hsub⟩
      have : ((allTeams cat).find?
          (fun u => pySubstr (pyLower (pyStrip input)) (fieldsOf u))).isSome := by
        rw [List.find?_isSome]
        exact ⟨t, hmem, hsub⟩
      rcases hfind : (allTeams cat).find?
          (fun u => pySubstr (pyLower (pyStrip input)) (fieldsOf u)) with _ | u
      · rw [hfind] at this; simp at this
      · refine ⟨(pyStrOpt u.cid, scanSlug u), ?_⟩
        unfold resolve_team_id
        rw [if_neg (by simp [hd])]
        rw [ha]
        unfold scanCatalog
        rw [hfind]
        rfl
  · intro t hfind
    unfold resolve_team_id
    rw [if_neg (by simp [hd])]
    rw [ha]
    unfold scanCatalog
    rw [hfind]
    rfl
  · intro hall
    unfold resolve_team_id
    rw [if_neg (by simp [hd])]
    rw [ha]
    unfold scanCatalog
    rw [List.find?_eq_none.mpr (fun t ht => by simp [hall t ht])]
    rfl

/-- Witness for C6 (amended): the scan resolves `"Blue"` to the first (and
only) catalog team whose joined fields contain it. -/
theorem C6_witness :
    resolve_team_id infoNone catalogEx "Blue" =
      .ok (pyStrOpt dukeCatalogTeam.cid, scanSlug dukeCatalogTeam) :=
  (C6_amended_substring_resolution infoNone catalogEx "Blue" (by decide)
    (by decide)).2.1 dukeCatalogTeam (by decide)

def evFinal : Event :=
  { eid := "401750002"
    date := "2026-01-03T00:00Z"
    seasonYear := some 2026
    competitions :=
      [{ cstatus := some ⟨some ⟨some "post", some "Final", some "STATUS_FINAL"⟩⟩
         competitors := [⟨some ⟨some "Duke Blue Devils"⟩⟩, ⟨some ⟨some "Kansas Jayhawks"⟩⟩] }] }

/-- C8 counterexample: `espn_sync.main` stores the raw provider status text —
for a completed event whose status description is `"Final"` the persisted
`games` row carries `status = "Final"`, a completed-status string that is not
the canonical `"post"` value, and `espn_sync` contains no normalization step
at all (the `UPDATE ... SET status='post'` exists only at the *end of run* of
`sync_all_boxscores`, not at write time). -/
theorem C8_counterexample :
    espn_process_event 2026 evFinal = .gameAndFetch (event_game_row 2026 evFinal) ∧
    (event_game_row 2026 evFinal).status = "Final" ∧ "Final" ≠ "post" := by
  refine ⟨by decide, by decide, by decide⟩

/-- C8 amended: statuses are persisted as raw provider text; only
`sync_all_boxscores` normalizes, and only at the end of the run: its `UPDATE`
rewrites exactly the rows whose lowercased status is `"final"` or
`"status_final"` to `"post"` (so afterwards no row carries those two
spellings), leaves any other completed-status spelling (e.g. `"Final/OT"`)
untouched, and `espn_sync` writes the raw `"Final"` with no normalization. -/
theorem C8_amended_status_normalization :
    (∀ (tbl : List GameRow) (g : GameRow), g ∈ normalize_games_status tbl →
      pyLower g.status ≠ "final" ∧ pyLower g.status ≠ "status_final") ∧
    (∀ g : GameRow, pyLower g.status = "final" ∨ pyLower g.status = "status_final" →
      (normStatus g).status = "post") ∧
    (∀ g : GameRow, g.status = "Final/OT" → normStatus g = g) ∧
    (event_game_row 2026 evFinal).status = "Final" := by
  refine ⟨?_, ?_, ?_, by decide⟩
  · intro tbl g hg
    obtain ⟨g0, _, rfl⟩ := List.mem_map.mp hg
    unfold normStatus
    split
    next h =>
      refine ⟨?_, ?_⟩ <;> (show pyLower "post" ≠ _; decide)
    next h =>
      have h' : ¬(pyLower g0.status = "final") ∧ ¬(pyLower g0.status = "status_final") := by
        simpa [not_or] using h
      exact h'
  · intro g h
    have hc : (pyLower g.status = "final" || pyLower g.status = "status_final") = true := by
      rcases h with h | h <;> simp [h]
    unfold normStatus
    rw [if_pos hc]
  · intro g h
    unfold normStatus
    rw [h]
    rw [if_neg (by decide)]

def gameFinalEx : GameRow := ⟨"401750002", "2026-01-03", "Duke", "UNC", "Final", 2026⟩

/-- Witness for C8 (amended): after the end-of-run update no row carries a
lowercase `"final"`/`"status_final"` status. -/
theorem C8_witness :
    pyLower (normStatus gameFinalEx).status ≠ "final" ∧
    pyLower (normStatus gameFinalEx).status ≠ "status_final" :=
  C8_amended_status_normalization.1 [gameFinalEx] (normStatus gameFinalEx)
    (by simp [normalize_games_status])

/-- C10: every `games` row either ESPN-based sync writes carries the season
year derived from the *requested* season string: the written row is always
`event_game_row seasonYear ev` whose `season_year` field is the requested
year, and an event whose embedded (non-zero) season year differs from the
requested one is filtered out before anything is written.  (Python
truthiness exempts a zero or missing embedded year from the filter; the
stored value is the requested year regardless.) -/
theorem C10_stored_season_is_requested :
    (∀ (sy : Int) (ev : Event) (g : GameRow),
      espn_process_event sy ev = .gameOnly g ∨
        espn_process_event sy ev = .gameAndFetch g →
      g.season_year = sy) ∧
    (∀ (sy : Int) (ev : Event) (g : GameRow),
      sync_all_process_event sy ev = some g → g.season_year = sy) ∧
    (∀ (sy : Int) (ev : Event) (y : Int), ev.seasonYear = some y → y ≠ 0 → y ≠ sy →
      espn_process_event sy ev = .skip ∧ sync_all_process_event sy ev = none) := by
  refine ⟨?_, ?_, ?_⟩
  · intro sy ev g h
    unfold espn_process_event at h
    split_ifs at h with h1 h2
    · rcases h with h | h <;> simp at h
    · rcases h with h | h
      · simp at h
      · have hg : event_game_row sy ev = g := by
          injection h
        rw [← hg]
        rfl
    · rcases h with h | h
      · have hg : event_game_row sy ev = g := by
          injection h
        rw [← hg]
        rfl
      · simp at h
  · intro sy ev g h
    unfold sync_all_process_event at h
    by_cases h1 : evState ev = "post"
    · rw [if_pos h1] at h
      by_cases h2 : evSeasonMismatch ev.seasonYear sy = true
      · rw [if_pos h2] at h
        exact absurd h (by simp)
      · rw [if_neg h2] at h
        have hg := Option.some.inj h
        rw [← hg]
        rfl
    · rw [if_neg h1] at h
      exact absurd h (by simp)
  · intro sy ev y hy h0 hsy
    have hm : evSeasonMismatch ev.seasonYear sy = true := by
      rw [hy]
      simp [evSeasonMismatch, h0, hsy]
    constructor
    · simp [espn_process_event, hm]
    · simp [sync_all_process_event, hm]

def evMismatch : Event :=
  { eid := "401749999", date := "2024-11-04T00:00Z", seasonYear := some 2024
    competitions := [] }

/-- Witness for C10: a 2024-embedded event requested under season 2026 is
skipped by both syncs. -/
theorem C10_witness :
    espn_process_event 2026 evMismatch = .skip ∧
    sync_all_process_event 2026 evMismatch = none :=
  C10_stored_season_is_requested.2.2 2026 evMismatch 2024 rfl (by decide) (by decide)
